import Mathlib

/-!
# Verification of the OND Money mock ledger (src/server.js)

Shallow embedding of the ledger core of `src/server.js`: wallet store,
transaction log, idempotency cache, and the credit / debit / transfer
operations, plus the wallet create (POST /wallet) and update
(PUT /wallet/:walletId) endpoints that can also touch balances.

Modelling conventions:
* JS numbers are modelled as `ℚ`.  A request field that is missing, not a
  number, `NaN` or `±Infinity` is modelled as `none`; `isPositiveNumber`
  then fails on it exactly as in the source.
* A string request field is `Option String`; JS falsiness (`!x`) holds for
  `none` and for the empty string (`truthy`).
* `Number(x.toFixed(2))` is modelled by `round2` (round to nearest with
  ties up at two decimals) and `x.toFixed(2)` by the string `toFixed2`.
* `Date.now()` / `new Date().toISOString()` are modelled by an explicit
  time parameter `t : Nat` passed to each operation.
* The `createdAt` / `updatedAt` / `processedAt` timestamp fields of stored
  records, and the payloads of emitted events, are omitted: no claim
  refers to them; the events log keeps only the topic strings.
-/

/-- Models `Number((x).toFixed(2))` from the source: round to two decimal
places (nearest, ties rounded up). -/
def round2 (q : ℚ) : ℚ := (round (q * 100) : ℤ) / 100

/-- Two-digit zero padding for the fractional part of `toFixed2`. -/
def pad2 (n : Nat) : String :=
  if n < 10 then "0" ++ toString n else toString n

/-- Models `x.toFixed(2)`: decimal rendering with exactly two fractional
digits. -/
def toFixed2 (q : ℚ) : String :=
  let c : ℤ := round (q * 100)
  if c < 0 then
    "-" ++ toString ((-c).toNat / 100) ++ "." ++ pad2 ((-c).toNat % 100)
  else
    toString (c.toNat / 100) ++ "." ++ pad2 (c.toNat % 100)

/-- JS truthiness of an optional string field (`!x` is true for a missing
field and for the empty string). -/
def truthy : Option String → Bool
  | some s => !s.isEmpty
  | none => false

/-- Models `description || null`: an empty string collapses to null. -/
def descOrNull : Option String → Option String
  | some s => if s.isEmpty then none else some s
  | none => none

/-! ## Data model -/

/-- A bank record; only the identifier is relevant to the ledger core
(existence checks). -/
structure Bank where
  bankId : String
  deriving Repr, DecidableEq

/-- A wallet record (timestamp fields omitted, see module docstring). -/
structure Wallet where
  walletId : String
  bankId : String
  ownerId : String
  ownerName : String
  phoneNumber : String
  balance : ℚ
  status : String
  deriving Repr, DecidableEq

/-- Transaction type tag, `"CREDIT"` / `"DEBIT"` in the source. -/
inductive TxnType
  | CREDIT
  | DEBIT
  deriving Repr, DecidableEq

/-- A transaction record as pushed to `db.transactions`.  Single-wallet
credit/debit transactions carry no description field: `none` here. -/
structure Txn where
  id : Nat
  transactionId : String
  walletId : String
  type : TxnType
  status : String
  amount : ℚ
  balanceBefore : ℚ
  balanceAfter : ℚ
  reference : String
  description : Option String
  timestamp : Nat
  deriving Repr, DecidableEq

/-- The transfer response payload built by `POST /wallet/transfer`. -/
structure TransferResponse where
  transactionId : String
  sourceWalletId : String
  destinationWalletId : String
  amount : ℚ
  status : String
  sourceBalanceBefore : ℚ
  sourceBalanceAfter : ℚ
  destinationBalanceBefore : ℚ
  destinationBalanceAfter : ℚ
  reference : String
  description : Option String
  timestamp : Nat
  deriving Repr, DecidableEq

/-- An idempotency cache record as pushed to `db.idempotency`. -/
structure IdemRecord where
  id : Nat
  key : String
  response : TransferResponse
  createdAt : Nat
  deriving Repr, DecidableEq

/-- Machine-readable error kinds used by the modelled endpoints. -/
inductive ErrCode
  | INVALID_REQUEST
  | INVALID_AMOUNT
  | INVALID_TRANSFER
  | WALLET_NOT_FOUND
  | BANK_NOT_FOUND
  | INSUFFICIENT_FUNDS
  | WALLET_ALREADY_EXISTS
  | WALLET_PHONE_ALREADY_EXISTS
  deriving Repr, DecidableEq

/-- An error response body (`badRequest` / `notFound` / `conflict` in the
source; the timestamp field is omitted). -/
structure ApiError where
  status : Nat
  error : ErrCode
  message : String
  deriving Repr, DecidableEq

/-- The mutable store behind `db.json`: banks, wallets, the append-only
transaction log, the idempotency cache, and the emitted event topics. -/
structure St where
  banks : List Bank
  wallets : List Wallet
  transactions : List Txn
  idempotency : List IdemRecord
  events : List String
  deriving Repr, DecidableEq

/-! ## Store lookups and updates -/

/-- `db.get("banks").find({ bankId }).value()`. -/
def findBankByBankId (banks : List Bank) (bankId : String) : Option Bank :=
  banks.find? (fun b => b.bankId = bankId)

/-- `db.get("wallets").find({ walletId }).value()`. -/
def findWalletByWalletId (wallets : List Wallet) (walletId : String) : Option Wallet :=
  wallets.find? (fun w => w.walletId = walletId)

/-- `!!db.get("wallets").find({ phoneNumber }).value()`. -/
def walletExistsByPhone (wallets : List Wallet) (phoneNumber : String) : Bool :=
  (wallets.find? (fun w => w.phoneNumber = phoneNumber)).isSome

/-- `db.get("idempotency").find({ key }).value()`. -/
def findIdem (l : List IdemRecord) (key : String) : Option IdemRecord :=
  l.find? (fun rec => rec.key = key)

/-- The idempotency lookup guarded by key truthiness:
`if (idemKey) { const cached = db.get("idempotency").find({key}).value(); ... }`. -/
def cacheLookup (l : List IdemRecord) : Option String → Option IdemRecord
  | some k => if k.isEmpty then none else findIdem l k
  | none => none

/-- `db.get("wallets").find({ walletId }).assign({ balance }).write()`:
the first wallet matching `walletId` gets the new balance. -/
def updateWalletBalance : List Wallet → String → ℚ → List Wallet
  | [], _, _ => []
  | w :: rest, wid, b =>
    if w.walletId = wid then { w with balance := b } :: rest
    else w :: updateWalletBalance rest wid b

/-- `db.get("wallets").find({ walletId }).assign(updated).write()`: the
first wallet matching `walletId` is replaced by `upd`. -/
def assignWallet : List Wallet → String → Wallet → List Wallet
  | [], _, _ => []
  | w :: rest, wid, upd =>
    if w.walletId = wid then upd :: rest
    else w :: assignWallet rest wid upd

/-- Balance of the wallet a lookup on `wid` resolves to, if any. -/
def getBalance (wallets : List Wallet) (wid : String) : Option ℚ :=
  (findWalletByWalletId wallets wid).map Wallet.balance

/-! ## Requests and transaction builders -/

/-- Body of `POST /wallet/:walletId/credit` and `/debit`; the wallet id is
the path parameter (always a plain string). -/
structure OpReq where
  walletId : String
  amount : Option ℚ
  reference : Option String
  deriving Repr, DecidableEq

/-- Body + idempotency header of `POST /wallet/transfer`. -/
structure TransferReq where
  sourceWalletId : Option String
  destinationWalletId : Option String
  amount : Option ℚ
  reference : Option String
  description : Option String
  idemKey : Option String
  deriving Repr, DecidableEq

/-- Body of `PUT /wallet/:walletId`.  The source assigns `balance`
whenever `typeof balance === "number"`; `none` models a missing or
non-number field. -/
structure PutWalletReq where
  bankId : Option String
  ownerId : Option String
  ownerName : Option String
  phoneNumber : Option String
  status : Option String
  balance : Option ℚ
  deriving Repr, DecidableEq

/-- Body of `POST /wallet`. -/
structure PostWalletReq where
  walletId : Option String
  bankId : Option String
  ownerId : Option String
  ownerName : Option String
  phoneNumber : Option String
  deriving Repr, DecidableEq

/-- The transaction pushed by a successful single-wallet credit. -/
def creditTxnOf (t : Nat) (walletId : String) (amount before : ℚ) (reference : String) : Txn :=
  { id := t, transactionId := "TXN-" ++ toString t, walletId := walletId,
    type := TxnType.CREDIT, status := "SUCCESS", amount := amount,
    balanceBefore := before, balanceAfter := round2 (before + amount),
    reference := reference, description := none, timestamp := t }

/-- The transaction pushed by a successful single-wallet debit. -/
def debitTxnOf (t : Nat) (walletId : String) (amount before : ℚ) (reference : String) : Txn :=
  { id := t, transactionId := "TXN-" ++ toString t, walletId := walletId,
    type := TxnType.DEBIT, status := "SUCCESS", amount := amount,
    balanceBefore := before, balanceAfter := round2 (before - amount),
    reference := reference, description := none, timestamp := t }

/-- The DEBIT-side transaction pushed by a successful transfer. -/
def transferDebitTxnOf (t : Nat) (walletId : String) (amount before : ℚ)
    (reference : String) (desc : Option String) : Txn :=
  { id := t, transactionId := "TXN-" ++ toString t ++ "-D", walletId := walletId,
    type := TxnType.DEBIT, status := "SUCCESS", amount := amount,
    balanceBefore := before, balanceAfter := round2 (before - amount),
    reference := reference, description := desc, timestamp := t }

/-- The CREDIT-side transaction pushed by a successful transfer. -/
def transferCreditTxnOf (t : Nat) (walletId : String) (amount before : ℚ)
    (reference : String) (desc : Option String) : Txn :=
  { id := t + 1, transactionId := "TXN-" ++ toString t ++ "-C", walletId := walletId,
    type := TxnType.CREDIT, status := "SUCCESS", amount := amount,
    balanceBefore := before, balanceAfter := round2 (before + amount),
    reference := reference, description := desc, timestamp := t }

/-- The response payload of a successful transfer. -/
def transferResponseOf (t : Nat) (sid did : String) (amount srcBefore dstBefore : ℚ)
    (reference : String) (desc : Option String) : TransferResponse :=
  { transactionId := "TRF-" ++ toString t, sourceWalletId := sid,
    destinationWalletId := did, amount := amount, status := "SUCCESS",
    sourceBalanceBefore := srcBefore, sourceBalanceAfter := round2 (srcBefore - amount),
    destinationBalanceBefore := dstBefore, destinationBalanceAfter := round2 (dstBefore + amount),
    reference := reference, description := desc, timestamp := t }

/-! ## Operations -/

/-- `POST /wallet/:walletId/credit`.  Checks mirror the source order:
wallet lookup, `isPositiveNumber(amount)` (here: a present field that is
a positive rational), `!reference`; then balance write, transaction
append and event emission. -/
def creditOp (st : St) (t : Nat) (req : OpReq) : Except ApiError Txn × St :=
  match findWalletByWalletId st.wallets req.walletId with
  | none =>
    (Except.error { status := 404, error := ErrCode.WALLET_NOT_FOUND,
                    message := "Wallet inexistant" }, st)
  | some wallet =>
    match req.amount with
    | none =>
      (Except.error { status := 400, error := ErrCode.INVALID_AMOUNT,
                      message := "amount doit être > 0" }, st)
    | some a =>
      if 0 < a then
        match req.reference with
        | none =>
          (Except.error { status := 400, error := ErrCode.INVALID_REQUEST,
                          message := "reference est requis" }, st)
        | some r =>
          if r.isEmpty then
            (Except.error { status := 400, error := ErrCode.INVALID_REQUEST,
                            message := "reference est requis" }, st)
          else
            let txn := creditTxnOf t req.walletId a wallet.balance r
            (Except.ok txn,
             { st with
                wallets := updateWalletBalance st.wallets req.walletId (round2 (wallet.balance + a)),
                transactions := st.transactions ++ [txn],
                events := st.events ++ ["wallet.credited"] })
      else
        (Except.error { status := 400, error := ErrCode.INVALID_AMOUNT,
                        message := "amount doit être > 0" }, st)

/-- `POST /wallet/:walletId/debit`: as credit, plus the insufficiency
guard `wallet.balance < amount` whose message cites both amounts at two
decimal places. -/
def debitOp (st : St) (t : Nat) (req : OpReq) : Except ApiError Txn × St :=
  match findWalletByWalletId st.wallets req.walletId with
  | none =>
    (Except.error { status := 404, error := ErrCode.WALLET_NOT_FOUND,
                    message := "Wallet inexistant" }, st)
  | some wallet =>
    match req.amount with
    | none =>
      (Except.error { status := 400, error := ErrCode.INVALID_AMOUNT,
                      message := "amount doit être > 0" }, st)
    | some a =>
      if 0 < a then
        match req.reference with
        | none =>
          (Except.error { status := 400, error := ErrCode.INVALID_REQUEST,
                          message := "reference est requis" }, st)
        | some r =>
          if r.isEmpty then
            (Except.error { status := 400, error := ErrCode.INVALID_REQUEST,
                            message := "reference est requis" }, st)
          else if wallet.balance < a then
            (Except.error { status := 400, error := ErrCode.INSUFFICIENT_FUNDS,
                            message := "Solde insuffisant. Solde actuel: " ++ toFixed2 wallet.balance
                              ++ ", Montant demandé: " ++ toFixed2 a }, st)
          else
            let txn := debitTxnOf t req.walletId a wallet.balance r
            (Except.ok txn,
             { st with
                wallets := updateWalletBalance st.wallets req.walletId (round2 (wallet.balance - a)),
                transactions := st.transactions ++ [txn],
                events := st.events ++ ["wallet.debited"] })
      else
        (Except.error { status := 400, error := ErrCode.INVALID_AMOUNT,
                        message := "amount doit être > 0" }, st)

/-- The combined input check of `POST /wallet/transfer`:
`!sourceWalletId || !destinationWalletId || !isPositiveNumber(amount) || !reference`.
Returns the validated fields when the check passes. -/
def validateTransfer (req : TransferReq) : Option (String × String × ℚ × String) :=
  match req.sourceWalletId, req.destinationWalletId, req.amount, req.reference with
  | some s, some d, some a, some r =>
    if s.isEmpty || d.isEmpty || !(decide (0 < a)) || r.isEmpty then none
    else some (s, d, a, r)
  | _, _, _, _ => none

/-- `POST /wallet/transfer`: input validation, self-transfer check, wallet
resolution, idempotency-cache short-circuit, sufficiency check, then the
two balance writes, two transaction appends, event, and optional
idempotency store — in exactly the source's order. -/
def transferOp (st : St) (t : Nat) (req : TransferReq) : Except ApiError TransferResponse × St :=
  match validateTransfer req with
  | none =>
    (Except.error { status := 400, error := ErrCode.INVALID_REQUEST,
                    message := "sourceWalletId, destinationWalletId, amount>0, reference requis" }, st)
  | some (sid, did, a, r) =>
    if sid = did then
      (Except.error { status := 400, error := ErrCode.INVALID_TRANSFER,
                      message := "Source et destination identiques" }, st)
    else
      match findWalletByWalletId st.wallets sid with
      | none =>
        (Except.error { status := 404, error := ErrCode.WALLET_NOT_FOUND,
                        message := "Wallet source inexistant: " ++ sid }, st)
      | some src =>
        match findWalletByWalletId st.wallets did with
        | none =>
          (Except.error { status := 404, error := ErrCode.WALLET_NOT_FOUND,
                          message := "Wallet destination inexistant: " ++ did }, st)
        | some dst =>
          match cacheLookup st.idempotency req.idemKey with
          | some cached => (Except.ok cached.response, st)
          | none =>
            if src.balance < a then
              (Except.error { status := 400, error := ErrCode.INSUFFICIENT_FUNDS,
                              message := "Solde insuffisant. Solde actuel: " ++ toFixed2 src.balance
                                ++ ", Montant demandé: " ++ toFixed2 a }, st)
            else
              let response := transferResponseOf t sid did a src.balance dst.balance r (descOrNull req.description)
              (Except.ok response,
               { st with
                  wallets := updateWalletBalance
                    (updateWalletBalance st.wallets sid (round2 (src.balance - a)))
                    did (round2 (dst.balance + a)),
                  transactions := st.transactions
                    ++ [transferDebitTxnOf t sid a src.balance r (descOrNull req.description),
                        transferCreditTxnOf t did a dst.balance r (descOrNull req.description)],
                  idempotency :=
                    match req.idemKey with
                    | some k =>
                      if k.isEmpty then st.idempotency
                      else st.idempotency ++ [{ id := t, key := k, response := response, createdAt := t }]
                    | none => st.idempotency,
                  events := st.events ++ ["wallet.transfer.completed"] })

/-- `PUT /wallet/:walletId`: full update.  Note the source assigns
`balance` directly from the body whenever it is a number — outside the
Balance Operation Engine. -/
def putWalletOp (st : St) (walletId : String) (req : PutWalletReq) : Except ApiError Wallet × St :=
  match findWalletByWalletId st.wallets walletId with
  | none =>
    (Except.error { status := 404, error := ErrCode.WALLET_NOT_FOUND,
                    message := "Wallet introuvable" }, st)
  | some wallet =>
    match req.bankId, req.ownerId, req.ownerName, req.phoneNumber, req.status with
    | some bankId, some ownerId, some ownerName, some phoneNumber, some status =>
      if bankId.isEmpty || ownerId.isEmpty || ownerName.isEmpty || phoneNumber.isEmpty || status.isEmpty then
        (Except.error { status := 400, error := ErrCode.INVALID_REQUEST,
                        message := "bankId, ownerId, ownerName, phoneNumber, status requis (PUT)" }, st)
      else
        match findBankByBankId st.banks bankId with
        | none =>
          (Except.error { status := 404, error := ErrCode.BANK_NOT_FOUND,
                          message := "Banque " ++ bankId ++ " introuvable" }, st)
        | some _ =>
          if phoneNumber ≠ wallet.phoneNumber ∧ walletExistsByPhone st.wallets phoneNumber = true then
            (Except.error { status := 409, error := ErrCode.WALLET_PHONE_ALREADY_EXISTS,
                            message := "Un wallet existe déjà pour " ++ phoneNumber }, st)
          else
            let updated : Wallet :=
              { wallet with
                  bankId := bankId, ownerId := ownerId, ownerName := ownerName,
                  phoneNumber := phoneNumber, status := status,
                  balance := match req.balance with
                    | some b => b
                    | none => wallet.balance }
            (Except.ok updated, { st with wallets := assignWallet st.wallets walletId updated })
    | _, _, _, _, _ =>
      (Except.error { status := 400, error := ErrCode.INVALID_REQUEST,
                      message := "bankId, ownerId, ownerName, phoneNumber, status requis (PUT)" }, st)

/-- `POST /wallet`: create a wallet with balance `0.0` after the
required-field, bank-existence and uniqueness checks. -/
def postWalletOp (st : St) (_t : Nat) (req : PostWalletReq) : Except ApiError Wallet × St :=
  match req.walletId, req.bankId, req.ownerId, req.ownerName, req.phoneNumber with
  | some walletId, some bankId, some ownerId, some ownerName, some phoneNumber =>
    if walletId.isEmpty || bankId.isEmpty || ownerId.isEmpty || ownerName.isEmpty || phoneNumber.isEmpty then
      (Except.error { status := 400, error := ErrCode.INVALID_REQUEST,
                      message := "walletId, bankId, ownerId, ownerName, phoneNumber sont requis" }, st)
    else
      match findBankByBankId st.banks bankId with
      | none =>
        (Except.error { status := 404, error := ErrCode.BANK_NOT_FOUND,
                        message := "Banque " ++ bankId ++ " introuvable" }, st)
      | some _ =>
        if (findWalletByWalletId st.wallets walletId).isSome then
          (Except.error { status := 409, error := ErrCode.WALLET_ALREADY_EXISTS,
                          message := "Le wallet " ++ walletId ++ " existe déjà" }, st)
        else if walletExistsByPhone st.wallets phoneNumber then
          (Except.error { status := 409, error := ErrCode.WALLET_PHONE_ALREADY_EXISTS,
                          message := "Un wallet existe déjà pour " ++ phoneNumber }, st)
        else
          let wallet : Wallet :=
            { walletId := walletId, bankId := bankId, ownerId := ownerId,
              ownerName := ownerName, phoneNumber := phoneNumber,
              balance := 0, status := "ACTIVE" }
          (Except.ok wallet,
           { st with wallets := st.wallets ++ [wallet],
                     events := st.events ++ ["wallet.created"] })
  | _, _, _, _, _ =>
    (Except.error { status := 400, error := ErrCode.INVALID_REQUEST,
                    message := "walletId, bankId, ownerId, ownerName, phoneNumber sont requis" }, st)

/-- Error kind of a result, if it is an error. -/
def errCodeOf {α : Type} : Except ApiError α → Option ErrCode
  | Except.error e => some e.error
  | Except.ok _ => none

/-- Whether a result is an error. -/
def isErr {α : Type} : Except ApiError α → Bool
  | Except.error _ => true
  | Except.ok _ => false

/-! ## Concrete fixtures (used by witnesses and counterexamples) -/

/-- A bank for the fixture states. -/
def bank1 : Bank := { bankId := "BK-001" }

/-- Fixture wallet A, balance 3500 (spec scenario). -/
def walletA : Wallet :=
  { walletId := "WALLET-A", bankId := "BK-001", ownerId := "U1",
    ownerName := "Alice", phoneNumber := "770000001", balance := 3500, status := "ACTIVE" }

/-- Fixture wallet B, balance 2000 (spec scenario). -/
def walletB : Wallet :=
  { walletId := "WALLET-B", bankId := "BK-001", ownerId := "U2",
    ownerName := "Brice", phoneNumber := "770000002", balance := 2000, status := "ACTIVE" }

/-- Fixture wallet C, balance 500 (spec debit scenario). -/
def walletC : Wallet :=
  { walletId := "WALLET-C", bankId := "BK-001", ownerId := "U3",
    ownerName := "Cheikh", phoneNumber := "770000003", balance := 500, status := "ACTIVE" }

/-- Fixture wallet D, balance 1500 (spec credit scenario). -/
def walletD : Wallet :=
  { walletId := "WALLET-D", bankId := "BK-001", ownerId := "U4",
    ownerName := "Dior", phoneNumber := "770000004", balance := 1500, status := "ACTIVE" }

/-- Fixture wallet Z, balance 0. -/
def walletZ : Wallet :=
  { walletId := "WALLET-Z", bankId := "BK-001", ownerId := "U5",
    ownerName := "Zal", phoneNumber := "770000005", balance := 0, status := "ACTIVE" }

/-- The base fixture store. -/
def baseSt : St :=
  { banks := [bank1], wallets := [walletA, walletB, walletC, walletD, walletZ],
    transactions := [], idempotency := [], events := [] }

/-- A cached transfer response for idempotency fixtures. -/
def cachedResp : TransferResponse :=
  { transactionId := "TRF-77", sourceWalletId := "WALLET-A",
    destinationWalletId := "WALLET-B", amount := 2000, status := "SUCCESS",
    sourceBalanceBefore := 3500, sourceBalanceAfter := 1500,
    destinationBalanceBefore := 2000, destinationBalanceAfter := 4000,
    reference := "TRF-001", description := none, timestamp := 77 }

/-- A cached idempotency record with key `KEY-1`. -/
def cachedRec : IdemRecord :=
  { id := 77, key := "KEY-1", response := cachedResp, createdAt := 77 }

/-- The base fixture store with one cached idempotency record. -/
def cachedSt : St := { baseSt with idempotency := [cachedRec] }

/-- An invalid single-wallet operation request (missing amount). -/
def badOpReq : OpReq := { walletId := "WALLET-A", amount := none, reference := some "R" }

/-- An invalid transfer request (missing source wallet id). -/
def badTransferReq : TransferReq :=
  { sourceWalletId := none, destinationWalletId := some "WALLET-B", amount := some 10,
    reference := some "R", description := none, idemKey := none }

/-- A PUT /wallet body that writes a negative balance directly. -/
def putNegReq : PutWalletReq :=
  { bankId := some "BK-001", ownerId := some "U5", ownerName := some "Zal",
    phoneNumber := some "770000005", status := some "ACTIVE", balance := some (-5) }

/-- A store where the transfer result for key `KEY-1` is cached but the
source wallet has since been deleted. -/
def c3St : St :=
  { banks := [bank1], wallets := [walletB], transactions := [],
    idempotency := [cachedRec], events := [] }

/-- A transfer request replaying the cached key `KEY-1`. -/
def replayReq : TransferReq :=
  { sourceWalletId := some "WALLET-A", destinationWalletId := some "WALLET-B",
    amount := some 2000, reference := some "TRF-001", description := none,
    idemKey := some "KEY-1" }

/-- The spec's transfer scenario: 2000 from wallet A (3500) to wallet B
(2000). -/
def scenarioTransferReq : TransferReq :=
  { sourceWalletId := some "WALLET-A", destinationWalletId := some "WALLET-B",
    amount := some 2000, reference := some "TRF-001", description := none,
    idemKey := none }

/-- The spec's debit scenario: debit 1000 from wallet C (balance 500). -/
def debit1000Req : OpReq :=
  { walletId := "WALLET-C", amount := some 1000, reference := some "DEBIT-001" }

/-- The spec's credit scenario: credit 3000 to wallet D (balance 1500). -/
def credit3000Req : OpReq :=
  { walletId := "WALLET-D", amount := some 3000, reference := some "CREDIT-001" }

/-- A store with a cached transfer result and a low-balance source. -/
def c7St : St :=
  { banks := [bank1], wallets := [walletC, walletB], transactions := [],
    idempotency := [cachedRec], events := [] }

/-- A transfer request for more than the source balance, replaying the
cached key `KEY-1`. -/
def c7Req : TransferReq :=
  { sourceWalletId := some "WALLET-C", destinationWalletId := some "WALLET-B",
    amount := some 1000, reference := some "TRF-002", description := none,
    idemKey := some "KEY-1" }

/-- Follows C7's wording: the error a transfer request should produce,
applying input validation, then the self-transfer check, then wallet
resolution, then sufficiency — the earlier failing check wins. -/
def specTransferErrorOf (st : St) (req : TransferReq) : Option ErrCode :=
  match validateTransfer req with
  | none => some ErrCode.INVALID_REQUEST
  | some (sid, did, a, _r) =>
    if sid = did then some ErrCode.INVALID_TRANSFER
    else
      match findWalletByWalletId st.wallets sid, findWalletByWalletId st.wallets did with
      | none, _ => some ErrCode.WALLET_NOT_FOUND
      | some _, none => some ErrCode.WALLET_NOT_FOUND
      | some src, some _ =>
        if src.balance < a then some ErrCode.INSUFFICIENT_FUNDS else none

/-- A credit/debit request for the sub-cent amount 0.005. -/
def tinyReq : OpReq :=
  { walletId := "WALLET-Z", amount := some (1/200), reference := some "RT-001" }

/-- Wallet Z after a successful 0.005 credit: balance rounded to 0.01. -/
def walletZ1 : Wallet := { walletZ with balance := 1/100 }

/-- A round-trip request at two-decimal precision: amount 1 on wallet Z. -/
def roundTripReq : OpReq :=
  { walletId := "WALLET-Z", amount := some 1, reference := some "RT-002" }

/-! ## Lemmas about the store primitives -/

theorem findWallet_mem {ws : List Wallet} {wid : String} {w : Wallet}
    (h : findWalletByWalletId ws wid = some w) : w ∈ ws :=
  List.mem_of_find?_eq_some h

theorem findWallet_walletId {ws : List Wallet} {wid : String} {w : Wallet}
    (h : findWalletByWalletId ws wid = some w) : w.walletId = wid := by
  have := List.find?_some h
  simpa using this

theorem findWallet_update_self {ws : List Wallet} {wid : String} {w : Wallet} (b : ℚ)
    (h : findWalletByWalletId ws wid = some w) :
    findWalletByWalletId (updateWalletBalance ws wid b) wid = some { w with balance := b } := by
  induction ws with
  | nil => simp [findWalletByWalletId] at h
  | cons x xs ih =>
    by_cases hx : x.walletId = wid
    · rw [findWalletByWalletId, List.find?_cons_of_pos _ (by simpa using hx)] at h
      cases h
      simp [updateWalletBalance, hx, findWalletByWalletId]
    · rw [findWalletByWalletId, List.find?_cons_of_neg _ (by simpa using hx)] at h
      rw [updateWalletBalance, if_neg hx, findWalletByWalletId,
        List.find?_cons_of_neg _ (by simpa using hx)]
      exact ih h

theorem findWallet_update_other {ws : List Wallet} {wid wid' : String} (b : ℚ)
    (h : wid' ≠ wid) :
    findWalletByWalletId (updateWalletBalance ws wid b) wid' = findWalletByWalletId ws wid' := by
  induction ws with
  | nil => simp [findWalletByWalletId, updateWalletBalance]
  | cons x xs ih =>
    by_cases hx : x.walletId = wid
    · have hx' : ¬ x.walletId = wid' := fun hc => h (hc ▸ hx)
      rw [updateWalletBalance, if_pos hx, findWalletByWalletId,
        List.find?_cons_of_neg _ (by simpa using hx'), findWalletByWalletId,
        List.find?_cons_of_neg _ (by simpa using hx')]
    · rw [updateWalletBalance, if_neg hx]
      by_cases hx' : x.walletId = wid'
      · rw [findWalletByWalletId, List.find?_cons_of_pos _ (by simpa using hx'),
          findWalletByWalletId, List.find?_cons_of_pos _ (by simpa using hx')]
      · rw [findWalletByWalletId, List.find?_cons_of_neg _ (by simpa using hx'),
          findWalletByWalletId, List.find?_cons_of_neg _ (by simpa using hx')]
        exact ih

theorem updateWalletBalance_nonneg {ws : List Wallet} {wid : String} {b : ℚ}
    (hb : 0 ≤ b) (h : ∀ w ∈ ws, 0 ≤ w.balance) :
    ∀ w ∈ updateWalletBalance ws wid b, 0 ≤ w.balance := by
  induction ws with
  | nil => simp [updateWalletBalance]
  | cons x xs ih =>
    intro w hw
    rw [updateWalletBalance] at hw
    by_cases hx : x.walletId = wid
    · rw [if_pos hx] at hw
      rcases List.mem_cons.mp hw with rfl | hw
      · exact hb
      · exact h w (List.mem_cons_of_mem _ hw)
    · rw [if_neg hx] at hw
      rcases List.mem_cons.mp hw with rfl | hw
      · exact h w (List.mem_cons_self w xs)
      · exact ih (fun w' hw' => h w' (List.mem_cons_of_mem _ hw')) w hw

theorem mem_assignWallet {ws : List Wallet} {wid : String} {upd w : Wallet}
    (h : w ∈ assignWallet ws wid upd) : w ∈ ws ∨ w = upd := by
  induction ws with
  | nil => simp [assignWallet] at h
  | cons x xs ih =>
    rw [assignWallet] at h
    by_cases hx : x.walletId = wid
    · rw [if_pos hx] at h
      rcases List.mem_cons.mp h with rfl | h
      · exact Or.inr rfl
      · exact Or.inl (List.mem_cons_of_mem _ h)
    · rw [if_neg hx] at h
      rcases List.mem_cons.mp h with rfl | h
      · exact Or.inl (List.mem_cons_self w xs)
      · rcases ih h with h' | h'
        · exact Or.inl (List.mem_cons_of_mem _ h')
        · exact Or.inr h'

/-! ## Lemmas about rounding -/

theorem round2_nonneg {q : ℚ} (h : 0 ≤ q) : 0 ≤ round2 q := by
  rw [round2]
  apply div_nonneg _ (by norm_num)
  have : (0 : ℤ) ≤ round (q * 100) := by
    rw [round_eq]
    apply Int.floor_nonneg.mpr
    positivity
  exact_mod_cast this

theorem round2_intCast_div (n : ℤ) : round2 ((n : ℚ) / 100) = (n : ℚ) / 100 := by
  rw [round2, div_mul_cancel₀ _ (by norm_num : (100:ℚ) ≠ 0), round_intCast]

/-! ## Shape lemmas: every error path leaves the store untouched -/

theorem creditOp_error_cases (st : St) (t : Nat) (req : OpReq) :
    (creditOp st t req).snd = st ∨ isErr (creditOp st t req).fst = false := by
  unfold creditOp
  repeat' first
    | (exact Or.inl rfl)
    | (exact Or.inr rfl)
    | split

theorem debitOp_error_cases (st : St) (t : Nat) (req : OpReq) :
    (debitOp st t req).snd = st ∨ isErr (debitOp st t req).fst = false := by
  unfold debitOp
  repeat' first
    | (exact Or.inl rfl)
    | (exact Or.inr rfl)
    | split

theorem transferOp_error_cases (st : St) (t : Nat) (req : TransferReq) :
    (transferOp st t req).snd = st ∨ isErr (transferOp st t req).fst = false := by
  unfold transferOp
  repeat' first
    | (exact Or.inl rfl)
    | (exact Or.inr rfl)
    | split

/-! ## Success-path characterizations -/

theorem creditOp_success {st : St} (t : Nat) {req : OpReq} {w : Wallet} {a : ℚ} {r : String}
    (hw : findWalletByWalletId st.wallets req.walletId = some w)
    (ha : req.amount = some a) (hpos : 0 < a)
    (hr : req.reference = some r) (hre : r.isEmpty = false) :
    creditOp st t req =
      (Except.ok (creditTxnOf t req.walletId a w.balance r),
       { st with
          wallets := updateWalletBalance st.wallets req.walletId (round2 (w.balance + a)),
          transactions := st.transactions ++ [creditTxnOf t req.walletId a w.balance r],
          events := st.events ++ ["wallet.credited"] }) := by
  simp only [creditOp, hw, ha, hr, if_pos hpos, hre, Bool.false_eq_true, if_false]

theorem debitOp_success {st : St} (t : Nat) {req : OpReq} {w : Wallet} {a : ℚ} {r : String}
    (hw : findWalletByWalletId st.wallets req.walletId = some w)
    (ha : req.amount = some a) (hpos : 0 < a)
    (hr : req.reference = some r) (hre : r.isEmpty = false)
    (hnb : ¬ w.balance < a) :
    debitOp st t req =
      (Except.ok (debitTxnOf t req.walletId a w.balance r),
       { st with
          wallets := updateWalletBalance st.wallets req.walletId (round2 (w.balance - a)),
          transactions := st.transactions ++ [debitTxnOf t req.walletId a w.balance r],
          events := st.events ++ ["wallet.debited"] }) := by
  simp only [debitOp, hw, ha, hr, if_pos hpos, hre, Bool.false_eq_true, if_false, if_neg hnb]

theorem debitOp_insufficient {st : St} {t : Nat} {req : OpReq} {w : Wallet} {a : ℚ} {r : String}
    (hw : findWalletByWalletId st.wallets req.walletId = some w)
    (ha : req.amount = some a) (hpos : 0 < a)
    (hr : req.reference = some r) (hre : r.isEmpty = false)
    (hlt : w.balance < a) :
    debitOp st t req =
      (Except.error { status := 400, error := ErrCode.INSUFFICIENT_FUNDS,
                      message := "Solde insuffisant. Solde actuel: " ++ toFixed2 w.balance
                        ++ ", Montant demandé: " ++ toFixed2 a }, st) := by
  simp only [debitOp, hw, ha, hr, if_pos hpos, hre, Bool.false_eq_true, if_false, if_pos hlt]

theorem validateTransfer_elim {req : TransferReq} {sid did : String} {a : ℚ} {r : String}
    (h : validateTransfer req = some (sid, did, a, r)) :
    req.sourceWalletId = some sid ∧ req.destinationWalletId = some did
    ∧ req.amount = some a ∧ req.reference = some r
    ∧ 0 < a ∧ sid.isEmpty = false ∧ did.isEmpty = false ∧ r.isEmpty = false := by
  obtain ⟨ms, md, ma, mr, dsc, ik⟩ := req
  rcases ms with _ | s <;> rcases md with _ | d <;> rcases ma with _ | av <;>
    rcases mr with _ | rv <;> simp only [validateTransfer] at h <;>
    try exact Option.noConfusion h
  split_ifs at h with hcond
  injection h with h2
  simp only [Prod.mk.injEq] at h2
  obtain ⟨rfl, rfl, rfl, rfl⟩ := h2
  have hcond2 : ((s.isEmpty = false ∧ d.isEmpty = false) ∧ 0 < av) ∧ rv.isEmpty = false := by
    simpa [not_or] using hcond
  obtain ⟨⟨⟨hs, hd⟩, hpos⟩, hr⟩ := hcond2
  exact ⟨rfl, rfl, rfl, rfl, hpos, hs, hd, hr⟩

theorem transferOp_invalidRequest {st : St} {t : Nat} {req : TransferReq}
    (h : validateTransfer req = none) :
    transferOp st t req =
      (Except.error { status := 400, error := ErrCode.INVALID_REQUEST,
                      message := "sourceWalletId, destinationWalletId, amount>0, reference requis" }, st) := by
  simp only [transferOp, h]

theorem transferOp_selfTransfer {st : St} {t : Nat} {req : TransferReq}
    {sid did : String} {a : ℚ} {r : String}
    (hv : validateTransfer req = some (sid, did, a, r)) (he : sid = did) :
    transferOp st t req =
      (Except.error { status := 400, error := ErrCode.INVALID_TRANSFER,
                      message := "Source et destination identiques" }, st) := by
  simp only [transferOp, hv, if_pos he]

theorem transferOp_srcNotFound {st : St} {t : Nat} {req : TransferReq}
    {sid did : String} {a : ℚ} {r : String}
    (hv : validateTransfer req = some (sid, did, a, r)) (hne : sid ≠ did)
    (hs : findWalletByWalletId st.wallets sid = none) :
    transferOp st t req =
      (Except.error { status := 404, error := ErrCode.WALLET_NOT_FOUND,
                      message := "Wallet source inexistant: " ++ sid }, st) := by
  simp only [transferOp, hv, if_neg hne, hs]

theorem transferOp_dstNotFound {st : St} {t : Nat} {req : TransferReq}
    {sid did : String} {a : ℚ} {r : String} {src : Wallet}
    (hv : validateTransfer req = some (sid, did, a, r)) (hne : sid ≠ did)
    (hs : findWalletByWalletId st.wallets sid = some src)
    (hd : findWalletByWalletId st.wallets did = none) :
    transferOp st t req =
      (Except.error { status := 404, error := ErrCode.WALLET_NOT_FOUND,
                      message := "Wallet destination inexistant: " ++ did }, st) := by
  simp only [transferOp, hv, if_neg hne, hs, hd]

theorem transferOp_cached {st : St} {t : Nat} {req : TransferReq}
    {sid did : String} {a : ℚ} {r : String} {src dst : Wallet} {cached : IdemRecord}
    (hv : validateTransfer req = some (sid, did, a, r)) (hne : sid ≠ did)
    (hs : findWalletByWalletId st.wallets sid = some src)
    (hd : findWalletByWalletId st.wallets did = some dst)
    (hc : cacheLookup st.idempotency req.idemKey = some cached) :
    transferOp st t req = (Except.ok cached.response, st) := by
  simp only [transferOp, hv, if_neg hne, hs, hd, hc]

theorem transferOp_insufficient {st : St} {t : Nat} {req : TransferReq}
    {sid did : String} {a : ℚ} {r : String} {src dst : Wallet}
    (hv : validateTransfer req = some (sid, did, a, r)) (hne : sid ≠ did)
    (hs : findWalletByWalletId st.wallets sid = some src)
    (hd : findWalletByWalletId st.wallets did = some dst)
    (hc : cacheLookup st.idempotency req.idemKey = none)
    (hlt : src.balance < a) :
    transferOp st t req =
      (Except.error { status := 400, error := ErrCode.INSUFFICIENT_FUNDS,
                      message := "Solde insuffisant. Solde actuel: " ++ toFixed2 src.balance
                        ++ ", Montant demandé: " ++ toFixed2 a }, st) := by
  simp only [transferOp, hv, if_neg hne, hs, hd, hc, if_pos hlt]

theorem transferOp_success {st : St} {t : Nat} {req : TransferReq}
    {sid did : String} {a : ℚ} {r : String} {src dst : Wallet}
    (hv : validateTransfer req = some (sid, did, a, r)) (hne : sid ≠ did)
    (hs : findWalletByWalletId st.wallets sid = some src)
    (hd : findWalletByWalletId st.wallets did = some dst)
    (hc : cacheLookup st.idempotency req.idemKey = none)
    (hnb : ¬ src.balance < a) :
    transferOp st t req =
      (Except.ok (transferResponseOf t sid did a src.balance dst.balance r (descOrNull req.description)),
       { st with
          wallets := updateWalletBalance
            (updateWalletBalance st.wallets sid (round2 (src.balance - a)))
            did (round2 (dst.balance + a)),
          transactions := st.transactions
            ++ [transferDebitTxnOf t sid a src.balance r (descOrNull req.description),
                transferCreditTxnOf t did a dst.balance r (descOrNull req.description)],
          idempotency :=
            match req.idemKey with
            | some k =>
              if k.isEmpty then st.idempotency
              else st.idempotency ++
                [⟨t, k, transferResponseOf t sid did a src.balance dst.balance r (descOrNull req.description), t⟩]
            | none => st.idempotency,
          events := st.events ++ ["wallet.transfer.completed"] }) := by
  simp only [transferOp, hv, if_neg hne, hs, hd, hc, if_neg hnb]

/-! ## Idempotency-cache helper lemmas -/

theorem findIdem_append_of_some {l l2 : List IdemRecord} {k : String} {rec : IdemRecord}
    (h : findIdem l k = some rec) : findIdem (l ++ l2) k = some rec := by
  rw [findIdem, List.find?_append]
  rw [findIdem] at h
  rw [h]
  rfl

/-- Every run of `transferOp` either leaves the idempotency cache alone or
appends one record whose key was supplied by the request, non-empty, and
not previously cached. -/
theorem transferOp_idem_shape (st : St) (t : Nat) (req : TransferReq) :
    (transferOp st t req).snd.idempotency = st.idempotency
    ∨ ∃ k resp, req.idemKey = some k ∧ k.isEmpty = false
        ∧ findIdem st.idempotency k = none
        ∧ (transferOp st t req).snd.idempotency = st.idempotency ++ [⟨t, k, resp, t⟩] := by
  rcases hval : validateTransfer req with _ | ⟨sid, did, a, r⟩
  · rw [transferOp_invalidRequest hval]
    exact Or.inl rfl
  · by_cases hne : sid = did
    · rw [transferOp_selfTransfer hval hne]
      exact Or.inl rfl
    · rcases hs : findWalletByWalletId st.wallets sid with _ | src
      · rw [transferOp_srcNotFound hval hne hs]
        exact Or.inl rfl
      · rcases hd : findWalletByWalletId st.wallets did with _ | dst
        · rw [transferOp_dstNotFound hval hne hs hd]
          exact Or.inl rfl
        · rcases hc : cacheLookup st.idempotency req.idemKey with _ | cached
          · by_cases hlt : src.balance < a
            · rw [transferOp_insufficient hval hne hs hd hc hlt]
              exact Or.inl rfl
            · rw [transferOp_success hval hne hs hd hc hlt]
              rcases hk : req.idemKey with _ | k
              · exact Or.inl (by simp [hk])
              · by_cases hke : k.isEmpty
                · exact Or.inl (by simp [hk, hke])
                · right
                  refine ⟨k, transferResponseOf t sid did a src.balance dst.balance r
                    (descOrNull req.description), rfl, by simpa using hke, ?_, by simp [hk, hke]⟩
                  rw [hk, cacheLookup, if_neg hke] at hc
                  exact hc
          · rw [transferOp_cached hval hne hs hd hc]
            exact Or.inl rfl

/-! ## State-shape lemmas: what each operation can do to the wallet list -/

theorem creditOp_state_shape (st : St) (t : Nat) (req : OpReq) :
    (creditOp st t req).snd = st
    ∨ ∃ w a, findWalletByWalletId st.wallets req.walletId = some w ∧ 0 < a ∧
        (creditOp st t req).snd.wallets
          = updateWalletBalance st.wallets req.walletId (round2 (w.balance + a)) := by
  rcases hw : findWalletByWalletId st.wallets req.walletId with _ | w
  · left; simp only [creditOp, hw]
  · rcases ha : req.amount with _ | a
    · left; simp only [creditOp, hw, ha]
    · by_cases hpos : 0 < a
      · rcases hr : req.reference with _ | r
        · left; simp only [creditOp, hw, ha, hr, if_pos hpos]
        · by_cases hre : r.isEmpty
          · left; simp only [creditOp, hw, ha, hr, if_pos hpos, hre, if_true]
          · right
            refine ⟨w, a, rfl, hpos, ?_⟩
            rw [creditOp_success t hw ha hpos hr (by simpa using hre)]
      · left; simp only [creditOp, hw, ha, if_neg hpos]

theorem debitOp_state_shape (st : St) (t : Nat) (req : OpReq) :
    (debitOp st t req).snd = st
    ∨ ∃ w a, findWalletByWalletId st.wallets req.walletId = some w ∧ 0 < a
        ∧ ¬ w.balance < a ∧
        (debitOp st t req).snd.wallets
          = updateWalletBalance st.wallets req.walletId (round2 (w.balance - a)) := by
  rcases hw : findWalletByWalletId st.wallets req.walletId with _ | w
  · left; simp only [debitOp, hw]
  · rcases ha : req.amount with _ | a
    · left; simp only [debitOp, hw, ha]
    · by_cases hpos : 0 < a
      · rcases hr : req.reference with _ | r
        · left; simp only [debitOp, hw, ha, hr, if_pos hpos]
        · by_cases hre : r.isEmpty
          · left; simp only [debitOp, hw, ha, hr, if_pos hpos, hre, if_true]
          · by_cases hlt : w.balance < a
            · left
              rw [debitOp_insufficient hw ha hpos hr (by simpa using hre) hlt]
            · right
              refine ⟨w, a, rfl, hpos, hlt, ?_⟩
              rw [debitOp_success t hw ha hpos hr (by simpa using hre) hlt]
      · left; simp only [debitOp, hw, ha, if_neg hpos]

theorem transferOp_wallets_shape (st : St) (t : Nat) (req : TransferReq) :
    (transferOp st t req).snd = st
    ∨ ∃ sid did a src dst,
        findWalletByWalletId st.wallets sid = some src
        ∧ findWalletByWalletId st.wallets did = some dst
        ∧ 0 < a ∧ ¬ src.balance < a
        ∧ (transferOp st t req).snd.wallets
            = updateWalletBalance
                (updateWalletBalance st.wallets sid (round2 (src.balance - a)))
                did (round2 (dst.balance + a)) := by
  rcases hval : validateTransfer req with _ | ⟨sid, did, a, r⟩
  · rw [transferOp_invalidRequest hval]
    exact Or.inl rfl
  · by_cases hne : sid = did
    · rw [transferOp_selfTransfer hval hne]
      exact Or.inl rfl
    · rcases hs : findWalletByWalletId st.wallets sid with _ | src
      · rw [transferOp_srcNotFound hval hne hs]
        exact Or.inl rfl
      · rcases hd : findWalletByWalletId st.wallets did with _ | dst
        · rw [transferOp_dstNotFound hval hne hs hd]
          exact Or.inl rfl
        · rcases hc : cacheLookup st.idempotency req.idemKey with _ | cached
          · by_cases hlt : src.balance < a
            · rw [transferOp_insufficient hval hne hs hd hc hlt]
              exact Or.inl rfl
            · right
              refine ⟨sid, did, a, src, dst, hs, hd,
                (validateTransfer_elim hval).2.2.2.2.1, hlt, ?_⟩
              rw [transferOp_success hval hne hs hd hc hlt]
          · rw [transferOp_cached hval hne hs hd hc]
            exact Or.inl rfl

theorem postWalletOp_state_shape (st : St) (t : Nat) (req : PostWalletReq) :
    (postWalletOp st t req).snd = st
    ∨ ∃ nw : Wallet, nw.balance = 0
        ∧ (postWalletOp st t req).snd.wallets = st.wallets ++ [nw] := by
  unfold postWalletOp
  repeat' first
    | (exact Or.inl rfl)
    | (exact Or.inr ⟨_, rfl, rfl⟩)
    | split

/-! ## Claims -/

/-- C1: every credit, debit, or transfer request that fails with an error
(InvalidRequest, InvalidAmount, InvalidTransfer, WalletNotFound,
InsufficientFunds) returns the error before performing any mutation: the
whole store — wallet balances, transaction log, idempotency cache — is
unchanged. -/
theorem c1_error_before_mutation (st : St) (t : Nat) (cr dr : OpReq) (tr : TransferReq)
    (hc : isErr (creditOp st t cr).fst = true)
    (hd : isErr (debitOp st t dr).fst = true)
    (ht : isErr (transferOp st t tr).fst = true) :
    (creditOp st t cr).snd = st ∧ (debitOp st t dr).snd = st ∧ (transferOp st t tr).snd = st := by
  refine ⟨?_, ?_, ?_⟩
  · rcases creditOp_error_cases st t cr with h | h
    · exact h
    · simp [h] at hc
  · rcases debitOp_error_cases st t dr with h | h
    · exact h
    · simp [h] at hd
  · rcases transferOp_error_cases st t tr with h | h
    · exact h
    · simp [h] at ht

/-- Witness for C1 at concrete failing requests on the fixture store. -/
theorem c1_error_before_mutation_witness :
    (creditOp baseSt 0 badOpReq).snd = baseSt ∧ (debitOp baseSt 0 badOpReq).snd = baseSt
    ∧ (transferOp baseSt 0 badTransferReq).snd = baseSt :=
  c1_error_before_mutation baseSt 0 badOpReq badOpReq badTransferReq
    (by decide) (by decide) (by decide)

/-- C2 counterexample: the PUT /wallet/:walletId endpoint assigns any
number supplied as `balance`, so one wallet update drives a balance
negative — the balance is not mutated only through the Balance Operation
Engine, and `balance ≥ 0` does not survive the wallet update endpoint. -/
theorem c2_counterexample :
    ∃ w ∈ (putWalletOp baseSt "WALLET-Z" putNegReq).snd.wallets, w.balance < 0 := by
  decide

/-- C2 (amended): non-negativity of every wallet balance is preserved by
the Balance Operation Engine and wallet creation — credit, debit,
transfer, and POST /wallet — for arbitrary requests; the PUT wallet
update endpoint is excluded, since it writes a client-supplied balance
directly. -/
theorem c2_balances_nonneg (st : St) (t : Nat)
    (h : ∀ w ∈ st.wallets, 0 ≤ w.balance)
    (cr dr : OpReq) (tr : TransferReq) (pr : PostWalletReq) :
    (∀ w ∈ (creditOp st t cr).snd.wallets, 0 ≤ w.balance)
    ∧ (∀ w ∈ (debitOp st t dr).snd.wallets, 0 ≤ w.balance)
    ∧ (∀ w ∈ (transferOp st t tr).snd.wallets, 0 ≤ w.balance)
    ∧ (∀ w ∈ (postWalletOp st t pr).snd.wallets, 0 ≤ w.balance) := by
  refine ⟨?_, ?_, ?_, ?_⟩
  · rcases creditOp_state_shape st t cr with hs | ⟨w, a, hw, hpos, hws⟩
    · rw [hs]; exact h
    · rw [hws]
      exact updateWalletBalance_nonneg
        (round2_nonneg (add_nonneg (h w (findWallet_mem hw)) hpos.le)) h
  · rcases debitOp_state_shape st t dr with hs | ⟨w, a, hw, hpos, hnb, hws⟩
    · rw [hs]; exact h
    · rw [hws]
      exact updateWalletBalance_nonneg (round2_nonneg (sub_nonneg.mpr (not_lt.mp hnb))) h
  · rcases transferOp_wallets_shape st t tr with hs | ⟨sid, did, a, src, dst, hsrc, hdst, hpos, hnb, hws⟩
    · rw [hs]; exact h
    · rw [hws]
      exact updateWalletBalance_nonneg
        (round2_nonneg (add_nonneg (h dst (findWallet_mem hdst)) hpos.le))
        (updateWalletBalance_nonneg (round2_nonneg (sub_nonneg.mpr (not_lt.mp hnb))) h)
  · rcases postWalletOp_state_shape st t pr with hs | ⟨nw, hnw, hws⟩
    · rw [hs]; exact h
    · rw [hws]
      intro w hw
      rcases List.mem_append.mp hw with hw | hw
      · exact h w hw
      · rcases List.mem_singleton.mp hw with rfl
        rw [hnw]

/-- Witness for the amended C2 on the fixture store: after a successful
concrete transfer every wallet balance is still non-negative. -/
theorem c2_balances_nonneg_witness :
    ((transferOp baseSt 0 scenarioTransferReq).snd.wallets.all
      (fun w => decide (0 ≤ w.balance))) = true := by
  have h := (c2_balances_nonneg baseSt 0 (by decide) badOpReq badOpReq
    scenarioTransferReq
    { walletId := none, bankId := none, ownerId := none, ownerName := none,
      phoneNumber := none }).2.2.1
  rw [List.all_eq_true]
  intro w hw
  simpa using h w hw

/-- The two transaction identifiers minted by one transfer differ (same
time prefix, distinct `-D` / `-C` suffixes). -/
theorem txnId_suffix_ne (x : String) : x ++ "-D" ≠ x ++ "-C" := by
  intro h
  have h2 : (x ++ "-D").data = (x ++ "-C").data := congrArg String.data h
  rw [String.data_append, String.data_append] at h2
  have h3 := List.append_cancel_left h2
  have h4 : ("-D" : String) = "-C" := congrArg String.mk h3
  exact absurd h4 (by decide)

/-- C3 counterexample: a transfer request whose idempotency key has a
cached result does NOT always return that cached result — here the source
wallet no longer exists and the operation returns WalletNotFound, because
the cache is only consulted after input validation and wallet
resolution. -/
theorem c3_counterexample :
    cacheLookup c3St.idempotency replayReq.idemKey = some cachedRec
    ∧ isErr (transferOp c3St 0 replayReq).fst = true
    ∧ errCodeOf (transferOp c3St 0 replayReq).fst = some ErrCode.WALLET_NOT_FOUND := by
  decide

/-- C3 (amended): when a cached result exists for the supplied idempotency
key AND the request passes input validation, the self-transfer check and
resolution of both wallets, the operation returns the cached result
verbatim and performs no mutation at all — no balance change, no
transaction append, no cache change — even though wallet balances may
have changed since the result was cached. -/
theorem c3_cached_result_returned (st : St) (t : Nat) (req : TransferReq)
    (sid did : String) (a : ℚ) (r : String) (src dst : Wallet) (cached : IdemRecord)
    (hv : validateTransfer req = some (sid, did, a, r)) (hne : sid ≠ did)
    (hs : findWalletByWalletId st.wallets sid = some src)
    (hd : findWalletByWalletId st.wallets did = some dst)
    (hc : cacheLookup st.idempotency req.idemKey = some cached) :
    (transferOp st t req).fst = Except.ok cached.response
    ∧ (transferOp st t req).snd = st := by
  rw [transferOp_cached hv hne hs hd hc]
  exact ⟨rfl, rfl⟩

/-- Witness for the amended C3: on the fixture store both wallets exist,
the cached response (recorded when balances differed) is returned and the
store is untouched. -/
theorem c3_cached_result_returned_witness :
    (transferOp cachedSt 0 replayReq).fst = Except.ok cachedRec.response
    ∧ (transferOp cachedSt 0 replayReq).snd = cachedSt :=
  c3_cached_result_returned cachedSt 0 replayReq "WALLET-A" "WALLET-B" 2000 "TRF-001"
    walletA walletB cachedRec (by decide) (by decide) (by decide) (by decide) (by decide)

/-- C4: a successful transfer of `a` from source (balance `s`) to
destination (balance `d`) sets the source balance to `round2 (s - a)` and
the destination balance to `round2 (d + a)`, and appends exactly two
transaction records — a DEBIT on the source with `balanceBefore = s` and
a CREDIT on the destination with `balanceBefore = d` — sharing the
request's reference and carrying distinct transaction identifiers. -/
theorem c4_transfer_success (st : St) (t : Nat) (req : TransferReq)
    (sid did : String) (a : ℚ) (r : String) (src dst : Wallet)
    (hv : validateTransfer req = some (sid, did, a, r)) (hne : sid ≠ did)
    (hs : findWalletByWalletId st.wallets sid = some src)
    (hd : findWalletByWalletId st.wallets did = some dst)
    (hc : cacheLookup st.idempotency req.idemKey = none)
    (hnb : ¬ src.balance < a) :
    getBalance (transferOp st t req).snd.wallets sid = some (round2 (src.balance - a))
    ∧ getBalance (transferOp st t req).snd.wallets did = some (round2 (dst.balance + a))
    ∧ ∃ dTxn cTxn,
        (transferOp st t req).snd.transactions = st.transactions ++ [dTxn, cTxn]
        ∧ dTxn.type = TxnType.DEBIT ∧ dTxn.walletId = sid ∧ dTxn.balanceBefore = src.balance
        ∧ cTxn.type = TxnType.CREDIT ∧ cTxn.walletId = did ∧ cTxn.balanceBefore = dst.balance
        ∧ dTxn.reference = r ∧ cTxn.reference = r
        ∧ dTxn.transactionId ≠ cTxn.transactionId := by
  rw [transferOp_success hv hne hs hd hc hnb]
  have hne' : did ≠ sid := fun hcon => hne hcon.symm
  refine ⟨?_, ?_, ?_⟩
  · rw [getBalance, findWallet_update_other _ hne, findWallet_update_self _ hs]
    rfl
  · have hstep : findWalletByWalletId
        (updateWalletBalance st.wallets sid (round2 (src.balance - a))) did = some dst := by
      rw [findWallet_update_other _ hne']
      exact hd
    rw [getBalance, findWallet_update_self _ hstep]
    rfl
  · exact ⟨transferDebitTxnOf t sid a src.balance r (descOrNull req.description),
      transferCreditTxnOf t did a dst.balance r (descOrNull req.description),
      rfl, rfl, rfl, rfl, rfl, rfl, rfl, rfl, rfl,
      txnId_suffix_ne ("TXN-" ++ toString t)⟩

/-- Witness for C4 on the spec scenario (A: 3500 → 1500, B: 2000 → 4000). -/
theorem c4_transfer_success_witness :
    getBalance (transferOp baseSt 0 scenarioTransferReq).snd.wallets "WALLET-A"
        = some (round2 ((3500 : ℚ) - 2000))
    ∧ getBalance (transferOp baseSt 0 scenarioTransferReq).snd.wallets "WALLET-B"
        = some (round2 ((2000 : ℚ) + 2000))
    ∧ round2 ((3500 : ℚ) - 2000) = 1500 ∧ round2 ((2000 : ℚ) + 2000) = 4000 := by
  have h := c4_transfer_success baseSt 0 scenarioTransferReq "WALLET-A" "WALLET-B"
    2000 "TRF-001" walletA walletB (by decide) (by decide) (by decide) (by decide)
    (by decide) (by decide)
  exact ⟨h.1, h.2.1, by norm_num [round2, round_eq], by norm_num [round2, round_eq]⟩

/-- C5: under valid inputs on an existing wallet, a debit fails with
InsufficientFunds exactly when `balance < amount` (so `balance = amount`
succeeds), and the error message carries the current balance rendered at
two decimal places. -/
theorem c5_debit_insufficient_iff (st : St) (t : Nat) (req : OpReq)
    (w : Wallet) (a : ℚ) (r : String)
    (hw : findWalletByWalletId st.wallets req.walletId = some w)
    (ha : req.amount = some a) (hpos : 0 < a)
    (hr : req.reference = some r) (hre : r.isEmpty = false) :
    (errCodeOf (debitOp st t req).fst = some ErrCode.INSUFFICIENT_FUNDS ↔ w.balance < a)
    ∧ (¬ w.balance < a → isErr (debitOp st t req).fst = false)
    ∧ (w.balance < a → (debitOp st t req).fst = Except.error
        { status := 400, error := ErrCode.INSUFFICIENT_FUNDS,
          message := "Solde insuffisant. Solde actuel: " ++ toFixed2 w.balance
            ++ ", Montant demandé: " ++ toFixed2 a }) := by
  by_cases hlt : w.balance < a
  · rw [debitOp_insufficient hw ha hpos hr hre hlt]
    exact ⟨⟨fun _ => hlt, fun _ => rfl⟩, fun hn => absurd hlt hn, fun _ => rfl⟩
  · rw [debitOp_success t hw ha hpos hr hre hlt]
    refine ⟨⟨fun hcode => ?_, fun hl => absurd hl hlt⟩, fun _ => rfl, fun hl => absurd hl hlt⟩
    simp [errCodeOf] at hcode

/-- Witness for C5 on the spec scenario: the failure message cites the
current balance as `500.00`. -/
theorem c5_debit_insufficient_iff_witness :
    (debitOp baseSt 0 debit1000Req).fst = Except.error
      { status := 400, error := ErrCode.INSUFFICIENT_FUNDS,
        message := "Solde insuffisant. Solde actuel: " ++ toFixed2 ((500:ℚ))
          ++ ", Montant demandé: " ++ toFixed2 ((1000:ℚ)) }
    ∧ toFixed2 ((500:ℚ)) = "500.00" := by
  constructor
  · exact (c5_debit_insufficient_iff baseSt 0 debit1000Req walletC 1000 "DEBIT-001"
      (by decide) (by decide) (by decide) (by decide) (by decide)).2.2 (by decide)
  · have h : round ((500:ℚ) * 100) = 50000 := by norm_num [round_eq]
    simp only [toFixed2, h]
    rfl

/-- C6: a successful credit of `a` on a wallet with balance `b` sets the
balance to `round2 (b + a)` and appends one transaction with type CREDIT,
status SUCCESS, `balanceBefore = b`, `balanceAfter = round2 (b + a)`. -/
theorem c6_credit_success (st : St) (t : Nat) (req : OpReq)
    (w : Wallet) (a : ℚ) (r : String)
    (hw : findWalletByWalletId st.wallets req.walletId = some w)
    (ha : req.amount = some a) (hpos : 0 < a)
    (hr : req.reference = some r) (hre : r.isEmpty = false) :
    ∃ txn, (creditOp st t req).fst = Except.ok txn
      ∧ txn.type = TxnType.CREDIT ∧ txn.status = "SUCCESS"
      ∧ txn.balanceBefore = w.balance ∧ txn.balanceAfter = round2 (w.balance + a)
      ∧ (creditOp st t req).snd.transactions = st.transactions ++ [txn]
      ∧ getBalance (creditOp st t req).snd.wallets req.walletId
          = some (round2 (w.balance + a)) := by
  rw [creditOp_success t hw ha hpos hr hre]
  refine ⟨creditTxnOf t req.walletId a w.balance r, rfl, rfl, rfl, rfl, rfl, rfl, ?_⟩
  rw [getBalance, findWallet_update_self _ hw]
  rfl

/-- Witness for C6 on the spec scenario: balanceBefore 1500, balanceAfter
4500, status SUCCESS. -/
theorem c6_credit_success_witness :
    (∃ txn, (creditOp baseSt 0 credit3000Req).fst = Except.ok txn
      ∧ txn.type = TxnType.CREDIT ∧ txn.status = "SUCCESS"
      ∧ txn.balanceBefore = (1500:ℚ) ∧ txn.balanceAfter = round2 ((1500:ℚ) + 3000)
      ∧ (creditOp baseSt 0 credit3000Req).snd.transactions = baseSt.transactions ++ [txn]
      ∧ getBalance (creditOp baseSt 0 credit3000Req).snd.wallets "WALLET-D"
          = some (round2 ((1500:ℚ) + 3000)))
    ∧ round2 ((1500:ℚ) + 3000) = 4500 :=
  ⟨c6_credit_success baseSt 0 credit3000Req walletD 3000 "CREDIT-001"
      (by decide) (by decide) (by decide) (by decide) (by decide),
   by norm_num [round2, round_eq]⟩

/-- C7 counterexample: a valid, resolvable transfer request whose source
balance (500) is below the amount (1000) does NOT return
InsufficientFunds when a cached idempotency result exists — the cache
lookup sits between wallet resolution and the sufficiency check and
short-circuits with the cached success. -/
theorem c7_counterexample :
    validateTransfer c7Req = some ("WALLET-C", "WALLET-B", (1000:ℚ), "TRF-002")
    ∧ (findWalletByWalletId c7St.wallets "WALLET-C").isSome = true
    ∧ (findWalletByWalletId c7St.wallets "WALLET-B").isSome = true
    ∧ getBalance c7St.wallets "WALLET-C" = some 500 ∧ ((500:ℚ) < 1000)
    ∧ isErr (transferOp c7St 0 c7Req).fst = false := by
  decide

/-- C7 (amended): for every transfer request with no applicable cached
idempotency result, the error returned is exactly the one prescribed by
the ordered checks: InvalidRequest for missing/invalid fields, then
InvalidTransfer for self-transfer, then WalletNotFound for either missing
wallet, then InsufficientFunds when the source balance is below the
amount; no error otherwise. -/
theorem c7_error_order (st : St) (t : Nat) (req : TransferReq)
    (hnc : cacheLookup st.idempotency req.idemKey = none) :
    errCodeOf (transferOp st t req).fst = specTransferErrorOf st req := by
  rcases hval : validateTransfer req with _ | ⟨sid, did, a, r⟩
  · rw [transferOp_invalidRequest hval]
    simp only [specTransferErrorOf, hval]
    rfl
  · simp only [specTransferErrorOf, hval]
    by_cases hne : sid = did
    · rw [transferOp_selfTransfer hval hne, if_pos hne]
      rfl
    · rw [if_neg hne]
      rcases hs : findWalletByWalletId st.wallets sid with _ | src
      · rw [transferOp_srcNotFound hval hne hs]
        rfl
      · rcases hd : findWalletByWalletId st.wallets did with _ | dst
        · rw [transferOp_dstNotFound hval hne hs hd]
          rfl
        · by_cases hlt : src.balance < a
          · rw [transferOp_insufficient hval hne hs hd hnc hlt]
            simp [errCodeOf, hlt]
          · rw [transferOp_success hval hne hs hd hnc hlt]
            simp [errCodeOf, hlt]

/-- Witness for the amended C7 on the fixture store (no idempotency key),
with the prescribed error evaluated concretely. -/
theorem c7_error_order_witness :
    errCodeOf (transferOp baseSt 0 scenarioTransferReq).fst
        = specTransferErrorOf baseSt scenarioTransferReq
    ∧ specTransferErrorOf baseSt scenarioTransferReq = none :=
  ⟨c7_error_order baseSt 0 scenarioTransferReq (by decide), by decide⟩

/-- C8 counterexample: crediting 0.005 to a wallet with balance 0 and then
debiting 0.005 leaves the balance at 0.01, not 0 — both operations
succeed, but two-decimal rounding breaks the round-trip law for amounts
not at the configured precision. -/
theorem c8_counterexample :
    getBalance baseSt.wallets "WALLET-Z" = some 0
    ∧ isErr (creditOp baseSt 0 tinyReq).fst = false
    ∧ isErr (debitOp (creditOp baseSt 0 tinyReq).snd 1 tinyReq).fst = false
    ∧ getBalance (debitOp (creditOp baseSt 0 tinyReq).snd 1 tinyReq).snd.wallets "WALLET-Z"
        = some (1/100)
    ∧ ((1:ℚ)/100 ≠ 0) := by
  have hw : findWalletByWalletId baseSt.wallets tinyReq.walletId = some walletZ := by decide
  have hpos : (0:ℚ) < 1/200 := by norm_num
  have hcred := creditOp_success 0 hw rfl hpos rfl (by decide)
  rw [(show round2 (walletZ.balance + 1/200) = (1/100 : ℚ) by
    norm_num [walletZ, round2, round_eq])] at hcred
  have hw1 : findWalletByWalletId (creditOp baseSt 0 tinyReq).snd.wallets tinyReq.walletId
      = some walletZ1 := by
    rw [hcred]
    exact findWallet_update_self _ hw
  have hnb : ¬ walletZ1.balance < 1/200 := by norm_num [walletZ1]
  have hdeb := debitOp_success 1 hw1 rfl hpos rfl (by decide) hnb
  rw [(show round2 (walletZ1.balance - 1/200) = (1/100 : ℚ) by
    norm_num [walletZ1, walletZ, round2, round_eq])] at hdeb
  refine ⟨by decide, by rw [hcred]; rfl, by rw [hdeb]; rfl, ?_, by norm_num⟩
  have hfinal : findWalletByWalletId
      (debitOp (creditOp baseSt 0 tinyReq).snd 1 tinyReq).snd.wallets "WALLET-Z"
      = some { walletZ1 with balance := 1/100 } := by
    rw [hdeb]
    exact findWallet_update_self _ hw1
  rw [getBalance, hfinal]
  rfl

/-- C8 (amended): for balances and amounts at the configured two-decimal
precision (integer multiples of 0.01), crediting `a` and then debiting
`a` on the same wallet restores the original balance exactly. -/
theorem c8_round_trip (st : St) (t1 t2 : Nat) (req : OpReq) (w : Wallet)
    (a : ℚ) (r : String) (n m : ℤ)
    (hw : findWalletByWalletId st.wallets req.walletId = some w)
    (hb : w.balance = (n : ℚ) / 100) (hn : 0 ≤ n)
    (ha : req.amount = some a) (ham : a = (m : ℚ) / 100) (hm : 0 < m)
    (hr : req.reference = some r) (hre : r.isEmpty = false) :
    getBalance (debitOp (creditOp st t1 req).snd t2 req).snd.wallets req.walletId
      = some w.balance := by
  have hpos : 0 < a := by
    rw [ham]
    exact div_pos (by exact_mod_cast hm) (by norm_num)
  have hbal0 : 0 ≤ w.balance := by
    rw [hb]
    exact div_nonneg (by exact_mod_cast hn) (by norm_num)
  have hsum : round2 (w.balance + a) = w.balance + a := by
    rw [hb, ham, div_add_div_same, ← Int.cast_add, round2_intCast_div]
  have hcred := creditOp_success t1 hw ha hpos hr hre
  rw [hsum] at hcred
  have hw1 : findWalletByWalletId (creditOp st t1 req).snd.wallets req.walletId
      = some { w with balance := w.balance + a } := by
    rw [hcred]
    exact findWallet_update_self _ hw
  have hnb : ¬ ({ w with balance := w.balance + a } : Wallet).balance < a := by
    have : ({ w with balance := w.balance + a } : Wallet).balance = w.balance + a := rfl
    rw [this]
    exact not_lt.mpr (le_add_of_nonneg_left hbal0)
  have hback : round2 (({ w with balance := w.balance + a } : Wallet).balance - a)
      = w.balance := by
    have : ({ w with balance := w.balance + a } : Wallet).balance = w.balance + a := rfl
    rw [this, add_sub_cancel_right, hb, round2_intCast_div]
  have hdeb := debitOp_success t2 hw1 ha hpos hr hre hnb
  rw [hback] at hdeb
  have hfinal : findWalletByWalletId
      (debitOp (creditOp st t1 req).snd t2 req).snd.wallets req.walletId
      = some { ({ w with balance := w.balance + a } : Wallet) with balance := w.balance } := by
    rw [hdeb]
    exact findWallet_update_self _ hw1
  rw [getBalance, hfinal]
  rfl

/-- Witness for the amended C8: credit 1 then debit 1 on wallet Z
(balance 0) restores the balance 0. -/
theorem c8_round_trip_witness :
    getBalance (debitOp (creditOp baseSt 0 roundTripReq).snd 1 roundTripReq).snd.wallets
      "WALLET-Z" = some walletZ.balance :=
  c8_round_trip baseSt 0 1 roundTripReq walletZ 1 "RT-002" 0 100 (by decide)
    (by norm_num [walletZ]) (by norm_num) rfl (by norm_num) (by norm_num) rfl (by decide)

/-- C9: across any transfer operation the idempotency cache keeps at most
one record per key — keys stay pairwise distinct, nothing is stored when
the request carries no idempotency key, and an existing key's record is
never overwritten (first write wins: lookups still resolve to it). -/
theorem c9_cache_at_most_one_per_key (st : St) (t : Nat) (req : TransferReq)
    (h : (st.idempotency.map IdemRecord.key).Nodup) :
    ((transferOp st t req).snd.idempotency.map IdemRecord.key).Nodup
    ∧ (truthy req.idemKey = false → (transferOp st t req).snd.idempotency = st.idempotency)
    ∧ (∀ k rec, findIdem st.idempotency k = some rec
        → findIdem (transferOp st t req).snd.idempotency k = some rec) := by
  rcases transferOp_idem_shape st t req with hsh | ⟨k, resp, hk, hke, hnone, hsh⟩
  · rw [hsh]
    exact ⟨h, fun _ => rfl, fun _ _ hf => hf⟩
  · have hkeys : ∀ x ∈ st.idempotency, x.key ≠ k := by
      rw [findIdem] at hnone
      intro x hx
      have := List.find?_eq_none.mp hnone x hx
      simpa using this
    refine ⟨?_, ?_, ?_⟩
    · rw [hsh, List.map_append]
      rw [List.nodup_append]
      refine ⟨h, List.nodup_singleton _, ?_⟩
      intro x hx hx2
      rcases List.mem_map.mp hx with ⟨rec, hrec, rfl⟩
      rcases List.mem_singleton.mp hx2 with h2
      exact hkeys rec hrec (by simpa using h2)
    · intro hfalse
      rw [hk, truthy] at hfalse
      simp [hke] at hfalse
    · intro k' rec' hf
      rw [hsh]
      exact findIdem_append_of_some hf

/-- Witness for C9: the fixture store with one cached record keeps
distinct keys across a key-less transfer. -/
theorem c9_cache_at_most_one_per_key_witness :
    ((transferOp cachedSt 0 scenarioTransferReq).snd.idempotency.map IdemRecord.key).Nodup
    ∧ (transferOp cachedSt 0 scenarioTransferReq).snd.idempotency = cachedSt.idempotency := by
  have h := c9_cache_at_most_one_per_key cachedSt 0 scenarioTransferReq (by decide)
  exact ⟨h.1, h.2.1 (by decide)⟩

theorem validateTransfer_inj {req : TransferReq} {x y : String × String × ℚ × String}
    (h1 : validateTransfer req = some x) (h2 : validateTransfer req = some y) : x = y := by
  rw [h1] at h2
  injection h2

/-- C10: when a cached result exists for the request's idempotency key,
the store is never mutated, and the cached result is returned exactly
when input validation, the self-transfer check and resolution of both
wallets succeed; otherwise the request fails with InvalidRequest,
InvalidTransfer or WalletNotFound instead of returning the cached
response. -/
theorem c10_cached_after_validation (st : St) (t : Nat) (req : TransferReq)
    (key : String) (rec : IdemRecord)
    (hk : req.idemKey = some key) (hke : key.isEmpty = false)
    (hc : findIdem st.idempotency key = some rec) :
    (transferOp st t req).snd = st
    ∧ ((transferOp st t req).fst = Except.ok rec.response ↔
        ∃ sid did a r, validateTransfer req = some (sid, did, a, r) ∧ sid ≠ did
          ∧ (findWalletByWalletId st.wallets sid).isSome = true
          ∧ (findWalletByWalletId st.wallets did).isSome = true)
    ∧ (validateTransfer req = none
        → errCodeOf (transferOp st t req).fst = some ErrCode.INVALID_REQUEST)
    ∧ (∀ sid did a r, validateTransfer req = some (sid, did, a, r) → sid = did
        → errCodeOf (transferOp st t req).fst = some ErrCode.INVALID_TRANSFER)
    ∧ (∀ sid did a r, validateTransfer req = some (sid, did, a, r) → sid ≠ did
        → ((findWalletByWalletId st.wallets sid).isSome = false
            ∨ (findWalletByWalletId st.wallets did).isSome = false)
        → errCodeOf (transferOp st t req).fst = some ErrCode.WALLET_NOT_FOUND) := by
  have hcl : cacheLookup st.idempotency req.idemKey = some rec := by
    rw [hk]
    simp only [cacheLookup, hke, Bool.false_eq_true, if_false]
    exact hc
  rcases hval : validateTransfer req with _ | ⟨sid0, did0, a0, r0⟩
  · rw [transferOp_invalidRequest hval]
    refine ⟨rfl, ?_, fun _ => rfl, ?_, ?_⟩
    · constructor
      · intro hok
        simp at hok
      · rintro ⟨sid, did, a, r, hv, -⟩
        exact Option.noConfusion hv
    · intro sid did a r hv
      exact Option.noConfusion hv
    · intro sid did a r hv
      exact Option.noConfusion hv
  · by_cases hne : sid0 = did0
    · rw [transferOp_selfTransfer hval hne]
      refine ⟨rfl, ?_, ?_, fun _ _ _ _ _ _ => rfl, ?_⟩
      · constructor
        · intro hok
          simp at hok
        · rintro ⟨sid, did, a, r, hv, hne2, -⟩
          injection hv with heq
          simp only [Prod.mk.injEq] at heq
          obtain ⟨rfl, rfl, rfl, rfl⟩ := heq
          exact absurd hne hne2
      · intro h3
        exact Option.noConfusion h3
      · intro sid did a r hv hne2 hmiss
        injection hv with heq
        simp only [Prod.mk.injEq] at heq
        obtain ⟨rfl, rfl, rfl, rfl⟩ := heq
        exact absurd hne hne2
    · rcases hs : findWalletByWalletId st.wallets sid0 with _ | src
      · rw [transferOp_srcNotFound hval hne hs]
        refine ⟨rfl, ?_, ?_, ?_, fun _ _ _ _ _ _ _ => rfl⟩
        · constructor
          · intro hok
            simp at hok
          · rintro ⟨sid, did, a, r, hv, -, hsome, -⟩
            injection hv with heq
            simp only [Prod.mk.injEq] at heq
            obtain ⟨rfl, rfl, rfl, rfl⟩ := heq
            rw [hs] at hsome
            simp at hsome
        · intro h3
          exact Option.noConfusion h3
        · intro sid did a r hv heq2
          injection hv with heq
          simp only [Prod.mk.injEq] at heq
          obtain ⟨rfl, rfl, rfl, rfl⟩ := heq
          exact absurd heq2 hne
      · rcases hd : findWalletByWalletId st.wallets did0 with _ | dst
        · rw [transferOp_dstNotFound hval hne hs hd]
          refine ⟨rfl, ?_, ?_, ?_, fun _ _ _ _ _ _ _ => rfl⟩
          · constructor
            · intro hok
              simp at hok
            · rintro ⟨sid, did, a, r, hv, -, -, hdsome⟩
              injection hv with heq
              simp only [Prod.mk.injEq] at heq
              obtain ⟨rfl, rfl, rfl, rfl⟩ := heq
              rw [hd] at hdsome
              simp at hdsome
          · intro h3
            exact Option.noConfusion h3
          · intro sid did a r hv heq2
            injection hv with heq
            simp only [Prod.mk.injEq] at heq
            obtain ⟨rfl, rfl, rfl, rfl⟩ := heq
            exact absurd heq2 hne
        · rw [transferOp_cached hval hne hs hd hcl]
          refine ⟨rfl, ?_, ?_, ?_, ?_⟩
          · constructor
            · intro _
              exact ⟨sid0, did0, a0, r0, rfl, hne, by rw [hs]; rfl, by rw [hd]; rfl⟩
            · intro _
              rfl
          · intro h3
            exact Option.noConfusion h3
          · intro sid did a r hv heq2
            injection hv with heq
            simp only [Prod.mk.injEq] at heq
            obtain ⟨rfl, rfl, rfl, rfl⟩ := heq
            exact absurd heq2 hne
          · intro sid did a r hv hne2 hmiss
            injection hv with heq
            simp only [Prod.mk.injEq] at heq
            obtain ⟨rfl, rfl, rfl, rfl⟩ := heq
            rcases hmiss with hm | hm
            · rw [hs] at hm
              simp at hm
            · rw [hd] at hm
              simp at hm

/-- Witness for C10: on the fixture store with KEY-1 cached, a valid,
resolvable replay returns the cached response and leaves the store
unchanged; the cached branch of the iff is realised. -/
theorem c10_cached_after_validation_witness :
    (transferOp cachedSt 0 replayReq).snd = cachedSt
    ∧ (transferOp cachedSt 0 replayReq).fst = Except.ok cachedRec.response := by
  have h := c10_cached_after_validation cachedSt 0 replayReq "KEY-1" cachedRec
    (by decide) (by decide) (by decide)
  refine ⟨h.1, h.2.1.mpr ?_⟩
  exact ⟨"WALLET-A", "WALLET-B", 2000, "TRF-001", by decide, by decide, by decide, by decide⟩
